import Mathlib

/-!
Shallow embedding of the `aow` star-catalog generator (package `aow`,
"Architect of Worlds") and proofs about it.

Modelling conventions:
* Go `float64` values are modelled as real numbers (`ℝ`); the decimal
  literals of the source are taken exactly.
* A pseudo-random source (`math/rand/v2`) is modelled as a stream of
  uniform draws in `[0,1)` together with a cursor: each call to
  `Float64` consumes the next element of the stream, and `IntN n` is
  modelled as `⌊u * n⌋` for the next draw `u` (this is the standard
  abstraction of a uniform integer draw; it keeps the result in
  `[0, n)` exactly as Go guarantees).  The package-global source used
  by `rand.Float64()` is modelled as a *second, independent* stream,
  because the Go global source is seeded from process entropy and is
  distinct from the generator's seeded source.
* Go `int(x)` conversion truncates toward zero (`goInt`), `math.Floor`
  is `Int.floor`, `math.Ceil` is `Int.ceil`, `math.Cbrt` is the real
  cube root (`rcbrt`), `math.Pow(math.E, x)` is `Real.exp x`.
* Mutation is modelled by explicit state passing: every operation that
  consumes randomness returns the advanced stream state(s).
-/

namespace Aow

noncomputable section

/-! ## Pseudo-random source (src/unnamed/part_005, `prng.go`) -/

/-- State of a `math/rand/v2` source: an infinite stream of uniform
draws in `[0,1)` and a cursor pointing at the next unconsumed draw. -/
structure PRNG where
  stream : ℕ → ℝ
  idx : ℕ

/-- A stream is well-formed when every draw lies in `[0,1)`, which is
what Go's `Float64` guarantees. -/
def PRNG.WellFormed (p : PRNG) : Prop := ∀ i, 0 ≤ p.stream i ∧ p.stream i < 1

/-- Go `(*Rand).Float64`: consume the next draw. -/
def PRNG.Float64 (p : PRNG) : ℝ × PRNG :=
  (p.stream p.idx, ⟨p.stream, p.idx + 1⟩)

/-- Go `(*Rand).IntN n`: a uniform integer in `[0, n)`, modelled as
`⌊u * n⌋` for the next draw `u`. -/
def PRNG.IntN (n : ℕ) (p : PRNG) : ℤ × PRNG :=
  (⌊p.stream p.idx * (n : ℝ)⌋, ⟨p.stream, p.idx + 1⟩)

/-- The summation loop shared by `PRNG.RollD6`/`PRNG.RollD10`
(`prng.go`): roll `n` dice with the given number of sides, each die
being `IntN sides + 1`, and sum. -/
def rollDiceSum (sides : ℕ) : ℕ → PRNG → ℤ × PRNG
  | 0, p => (0, p)
  | n + 1, p =>
    let d := PRNG.IntN sides p
    let rest := rollDiceSum sides n d.2
    (d.1 + 1 + rest.1, rest.2)

/-- `PRNG.RollD6` (src/unnamed/part_005): sum of `n` six-sided dice as a
`float64`. -/
def PRNG.RollD6 (n : ℕ) (p : PRNG) : ℝ × PRNG :=
  let r := rollDiceSum 6 n p
  ((r.1 : ℝ), r.2)

/-- `PRNG.RollD10` (src/unnamed/part_005): sum of `n` ten-sided dice. -/
def PRNG.RollD10 (n : ℕ) (p : PRNG) : ℝ × PRNG :=
  let r := rollDiceSum 10 n p
  ((r.1 : ℝ), r.2)

/-- `PRNG.RollD100` (src/unnamed/part_005): `IntN 100 + 1`. -/
def PRNG.RollD100 (p : PRNG) : ℤ × PRNG :=
  let r := PRNG.IntN 100 p
  (r.1 + 1, r.2)

/-- `PRNG.RollPercentile` (src/unnamed/part_005): a draw in `[0,1)`. -/
def PRNG.RollPercentile (p : PRNG) : ℝ × PRNG := p.Float64

/-- `PRNG.Vary5Pct` (src/unnamed/part_005): `f * (0.93 + RollD6(2)/100)`. -/
def PRNG.Vary5Pct (f : ℝ) (p : PRNG) : ℝ × PRNG :=
  let r := PRNG.RollD6 2 p
  (f * (0.93 + r.1 / 100.0), r.2)

/-- `PRNG.Vary10Pct` (src/unnamed/part_005): `f * (0.86 + RollD6(4)/100)`. -/
def PRNG.Vary10Pct (f : ℝ) (p : PRNG) : ℝ × PRNG :=
  let r := PRNG.RollD6 4 p
  (f * (0.86 + r.1 / 100.0), r.2)

/-- `PRNG.VaryNPct` (src/unnamed/part_005):
`f + (f*(RollD6(3)-10.5)/15)*pct`. -/
def PRNG.VaryNPct (f pct : ℝ) (p : PRNG) : ℝ × PRNG :=
  let r := PRNG.RollD6 3 p
  (f + (f * (r.1 - 10.5) / 15.0) * pct, r.2)

/-! ## Coordinates (src/unnamed/part_002) -/

/-- `Coordinates` (src/unnamed/part_002). -/
structure Coordinates where
  X : ℝ
  Y : ℝ
  Z : ℝ

/-- `Coordinates.Scale` (src/unnamed/part_002). -/
def Coordinates.Scale (c : Coordinates) (s : ℝ) : Coordinates :=
  ⟨c.X * s, c.Y * s, c.Z * s⟩

/-- `Coordinates.Translate` (src/unnamed/part_002): component-wise
vector addition. -/
def Coordinates.Translate (c s : Coordinates) : Coordinates :=
  ⟨c.X + s.X, c.Y + s.Y, c.Z + s.Z⟩

/-- `Coordinates.DistanceTo` (src/unnamed/part_002). -/
def Coordinates.DistanceTo (c o : Coordinates) : ℝ :=
  Real.sqrt ((o.X - c.X) * (o.X - c.X) + (o.Y - c.Y) * (o.Y - c.Y) +
    (o.Z - c.Z) * (o.Z - c.Z))

/-- Go `math.Cbrt`: the real cube root (odd extension of `x ^ (1/3)`). -/
def rcbrt (x : ℝ) : ℝ :=
  if x < 0 then -((-x) ^ ((1 : ℝ) / 3)) else x ^ ((1 : ℝ) / 3)

/-- `PRNG.GenXYZ` (src/unnamed/part_005): a uniform point of the unit
ball, drawn from the receiver's own stream (three `p.Float64()` calls:
distance, azimuth, inclination). -/
def PRNG.GenXYZ (p : PRNG) : Coordinates × PRNG :=
  let r1 := p.Float64
  let r2 := r1.2.Float64
  let r3 := r2.2.Float64
  let d := rcbrt r1.1
  let theta := r2.1 * 2 * Real.pi
  let phi := Real.arccos (2 * r3.1 - 1)
  (⟨d * Real.sin phi * Real.cos theta, d * Real.sin phi * Real.sin theta,
    d * Real.cos phi⟩, r3.2)

/-- `PRNG.GenZonedXYZ` (src/unnamed/part_005, lines 117-131).
Faithful to the source: although this is a method on the seeded
receiver `p`, its three uniform draws come from the package-global
`rand.Float64()` (the `g` stream here), not from `p`.  The receiver
state is returned untouched. -/
def PRNG.GenZonedXYZ (minPct maxPct : ℝ) (p g : PRNG) :
    Coordinates × PRNG × PRNG :=
  let r1 := g.Float64
  let r2 := r1.2.Float64
  let r3 := r2.2.Float64
  let d := rcbrt (r1.1 * (maxPct ^ (3 : ℕ) - minPct ^ (3 : ℕ)) + minPct ^ (3 : ℕ))
  let theta := r2.1 * 2 * Real.pi
  let phi := Real.arccos (2 * r3.1 - 1)
  (⟨d * Real.sin phi * Real.cos theta, d * Real.sin phi * Real.sin theta,
    d * Real.cos phi⟩, p, r3.2)

/-! ## Population model (src/population_model.go) -/

/-- `StellarPopulation_e` (src/population_model.go), in `iota` order. -/
inductive StellarPopulation_e where
  | YoungPopulationI
  | IntermediatePopulationI
  | OldPopulationI
  | DiskPopulationII
  | HaloPopulationII
deriving DecidableEq, Repr

/-- Numeric value of the Go enumeration constant (its `iota` index),
used for the `<` comparison on populations in the sort. -/
def StellarPopulation_e.popIdx : StellarPopulation_e → ℕ
  | .YoungPopulationI => 0
  | .IntermediatePopulationI => 1
  | .OldPopulationI => 2
  | .DiskPopulationII => 3
  | .HaloPopulationII => 4

/-- Per-group row of a population model (`populationModel_t`,
src/population_model.go). -/
structure populationModel_t where
  Density : ℝ := 0
  BaseAge : ℝ := 0
  AgeRange : ℝ := 0

/-- `PopulationModel_t` (src/population_model.go).  The `Radius` field
belongs to the catalog-building iteration of the struct (it is read by
`NewBackgroundPopulation` in src/unnamed/part_001). -/
structure PopulationModel_t where
  YoungPopulationI : populationModel_t := {}
  IntermediatePopulationI : populationModel_t := {}
  OldPopulationI : populationModel_t := {}
  DiskPopulationII : populationModel_t := {}
  HaloPopulationII : populationModel_t := {}
  CombinedDensity : ℝ := 0
  Volume : ℝ := 0
  Radius : ℝ := 0

/-- `BasicPopulationModelTable` (src/population_model.go): the
reference-neighborhood calibration table. -/
def BasicPopulationModelTable : PopulationModel_t where
  YoungPopulationI := { Density := 0.0344, BaseAge := 0.0, AgeRange := 2.0 }
  IntermediatePopulationI := { Density := 0.0272, BaseAge := 2.0, AgeRange := 3.0 }
  OldPopulationI := { Density := 0.0158, BaseAge := 5.0, AgeRange := 3.0 }
  DiskPopulationII := { Density := 0.00339, BaseAge := 8.0, AgeRange := 1.5 }
  HaloPopulationII := { Density := 0.000339, BaseAge := 9.5, AgeRange := 3.0 }
  CombinedDensity := 0.081129

/-- `AdvancedPopulationModelTable` (src/population_model.go, lines
113-136): position-dependent densities, coefficient times
`exp(-(r/3500))` times `exp(-(|h|/scale))`. -/
def AdvancedPopulationModelTable (r h : ℝ) : PopulationModel_t :=
  let habs := |h|
  let young : populationModel_t :=
    { Density := 0.373 * Real.exp (-(r / 3500.0)) * Real.exp (-(habs / 200)),
      BaseAge := 0.0, AgeRange := 2.0 }
  let inter : populationModel_t :=
    { Density := 0.280 * Real.exp (-(r / 3500)) * Real.exp (-(habs / 400)),
      BaseAge := 2.0, AgeRange := 3.0 }
  let old : populationModel_t :=
    { Density := 0.160 * Real.exp (-(r / 3500)) * Real.exp (-(habs / 700)),
      BaseAge := 5.0, AgeRange := 3.0 }
  let disk : populationModel_t :=
    { Density := 0.0339 * Real.exp (-(r / 3500)) * Real.exp (-(habs / 1000)),
      BaseAge := 8.0, AgeRange := 1.5 }
  let halo : populationModel_t :=
    { Density := 0.00339 * Real.exp (-(r / 3500)) * Real.exp (-(habs / 2000)),
      BaseAge := 9.5, AgeRange := 3.0 }
  { YoungPopulationI := young
    IntermediatePopulationI := inter
    OldPopulationI := old
    DiskPopulationII := disk
    HaloPopulationII := halo
    CombinedDensity := young.Density + inter.Density + old.Density +
      disk.Density + halo.Density }

/-! ## Volume sizing (src/volumes.go, src/population_model.go) -/

/-- `VolumeForEarthLikeSystems` (src/volumes.go, lines 20-27). -/
def VolumeForEarthLikeSystems (n : ℤ) (tweak : ℝ) : ℝ :=
  let base : ℝ := 150.0
  let cubicParsecsPerSolLikeSystem :=
    if 0 < tweak ∧ tweak ≤ 5 then base + tweak else base
  (n : ℝ) * 2.0 * cubicParsecsPerSolLikeSystem

/-- `VolumeForSolLikeNeighborhood` (src/volumes.go, lines 41-48). -/
def VolumeForSolLikeNeighborhood (n : ℤ) (tweak : ℝ) : ℝ :=
  let base : ℝ := 12.0
  let cubicParsecsPerStarSystem :=
    if 0 < tweak ∧ tweak ≤ 1 then base + tweak else base
  (n : ℝ) * cubicParsecsPerStarSystem

/-- `VolumeForOtherNeighborhoods` (src/volumes.go, lines 61-73). -/
def VolumeForOtherNeighborhoods (n : ℤ) (r h tweak : ℝ) : ℝ :=
  let pm := AdvancedPopulationModelTable |r| |h|
  let base := 1 / pm.CombinedDensity
  let cubicParsecsPerStarSystem :=
    if 0 < tweak ∧ tweak ≤ 1 then base + base * tweak else base
  (n : ℝ) * cubicParsecsPerStarSystem

/-- `PopulationModelForSolLikeNeighborhood` (src/population_model.go):
the basic table with `Volume := n * (12 + tweak-if-in-range)`. -/
def PopulationModelForSolLikeNeighborhood (n : ℤ) (tweak : ℝ) :
    PopulationModel_t :=
  let base : ℝ := 12.0
  let cubicParsecsPerStarSystem :=
    if 0 < tweak ∧ tweak ≤ 1 then base + tweak else base
  { BasicPopulationModelTable with Volume := (n : ℝ) * cubicParsecsPerStarSystem }

/-! ## Errors and options (src/errors.go, src/options.go) -/

/-- The constant errors of src/errors.go. -/
inductive Error where
  | ErrNotImplemented
  | ErrNeighborhoodOffsetTooSmall
  | ErrNeighborhoodOffsetTooLarge
  | ErrPRNGNil
deriving DecidableEq, Repr

/-- `Catalog_e` (src/unnamed/part_001). -/
inductive Catalog_e where
  | SurveyCatalog
  | ReferenceCatalog
deriving DecidableEq, Repr

/-- `Generator` (src/unnamed/part_003, v0.0.5): seeded source, catalog
kind, population model and derived map radius.  The v0.0.2 struct of
src/aow.go carries the same configuration fields minus the model; both
constructors below build this state. -/
structure Generator where
  prng : PRNG
  typeOfCatalog : Catalog_e
  pm : PopulationModel_t := {}
  Radius : ℝ := 0

/-- A functional option, as in src/options.go: it may reject the
configuration with an error. -/
def GenOption : Type := Generator → Except Error Generator

/-- `WithOffset` (src/options.go, lines 15-27): validates
`300 ≤ |r| ≤ 30000` and `|h| ≤ 1250` and otherwise leaves the
generator untouched (the offsets are never stored). -/
def WithOffset (r h : ℝ) : GenOption := fun g =>
  let ra := |r|
  let ha := |h|
  if ra < 300 then .error .ErrNeighborhoodOffsetTooSmall
  else if ra > 30000 then .error .ErrNeighborhoodOffsetTooLarge
  else if ha > 1250 then .error .ErrNeighborhoodOffsetTooLarge
  else .ok g

/-- The option-application loop of `New`: first failing option aborts
construction. -/
def applyOptions : List GenOption → Generator → Except Error Generator
  | [], g => .ok g
  | o :: rest, g =>
    match o g with
    | .error e => .error e
    | .ok g1 => applyOptions rest g1

/-- `New` (src/aow.go, v0.0.2, lines 41-56): nil-source check, then the
options; nothing else is computed. -/
def NewV2 (n : ℤ) (prng : Option PRNG) (cat : Catalog_e)
    (options : List GenOption) : Except Error Generator :=
  let _ := n
  match prng with
  | none => .error .ErrPRNGNil
  | some src => applyOptions options { prng := src, typeOfCatalog := cat }

/-- `New` (src/unnamed/part_003, v0.0.5, lines 48-67): after the options
it always installs the Sol-like-neighborhood model for `n` and the
radius `ceil(cbrt(3V/4π))`, regardless of any offset option. -/
def New (n : ℤ) (prng : Option PRNG) (cat : Catalog_e)
    (options : List GenOption) : Except Error Generator :=
  match prng with
  | none => .error .ErrPRNGNil
  | some src =>
    match applyOptions options { prng := src, typeOfCatalog := cat } with
    | .error e => .error e
    | .ok g =>
      let pm := PopulationModelForSolLikeNeighborhood n 0
      .ok { g with
            pm := pm
            Radius := (⌈rcbrt (3 * pm.Volume / (4 * Real.pi))⌉ : ℤ) }

/-! ## Star systems and catalogs (src/unnamed/part_001) -/

/-- `StarSystem_t` as used by the catalog iteration
(src/unnamed/part_001 together with src/unnamed/part_002); the
transient `distance` cache used only by `SortByDistance` is omitted. -/
structure StarSystem_t where
  Population : StellarPopulation_e
  Age : ℝ
  Coordinates : Coordinates

/-- `Catalog_t` (src/unnamed/part_001). -/
structure Catalog_t where
  Kind : Catalog_e := .SurveyCatalog
  Radius : ℝ := 0
  Origin : Coordinates := ⟨0, 0, 0⟩
  StarSystems : List StarSystem_t := []

/-- `Catalog_t.Length` (src/unnamed/part_001). -/
def Catalog_t.Length (c : Catalog_t) : ℕ := c.StarSystems.length

/-- `Catalog_t.Merge` (src/unnamed/part_001, lines 262-270): append to
the receiver a fresh copy of every system of `other`, with coordinates
translated by `offset`; `other` is only read. -/
def Catalog_t.Merge (c other : Catalog_t) (offset : Coordinates) : Catalog_t :=
  { c with
    StarSystems := c.StarSystems ++
      other.StarSystems.map (fun ss =>
        { Population := ss.Population
          Age := ss.Age
          Coordinates := ss.Coordinates.Translate offset }) }

/-! ## Background population (src/unnamed/part_001, lines 28-57) -/

/-- Go `int(x)`: conversion of a `float64` to `int` truncates toward
zero. -/
def goInt (x : ℝ) : ℤ := if x < 0 then ⌈x⌉ else ⌊x⌋

/-- Inner loop of `NewBackgroundPopulation`: create `count` systems of
group `key`, each with age `BaseAge + AgeRange * RollPercentile()` and
position `GenXYZ().Scale(radius)`. -/
def genGroupSystems (key : StellarPopulation_e) (value : populationModel_t)
    (radius : ℝ) : ℕ → PRNG → List StarSystem_t × PRNG
  | 0, p => ([], p)
  | n + 1, p =>
    let u := p.RollPercentile
    let c := u.2.GenXYZ
    let rest := genGroupSystems key value radius n c.2
    ({ Population := key
       Age := value.BaseAge + value.AgeRange * u.1
       Coordinates := c.1.Scale radius } :: rest.1, rest.2)

/-- One iteration of the group loop of `NewBackgroundPopulation`:
`count = int(ceil(Vary10Pct(Density * Volume)))`, then that many
systems. -/
def genGroup (key : StellarPopulation_e) (value : populationModel_t)
    (pm : PopulationModel_t) (p : PRNG) : List StarSystem_t × PRNG :=
  let v := p.Vary10Pct (value.Density * pm.Volume)
  let count : ℤ := ⌈v.1⌉
  genGroupSystems key value pm.Radius count.toNat v.2

/-- `NewBackgroundPopulation` (src/unnamed/part_001, lines 28-57): the
five groups in table order. -/
def NewBackgroundPopulation (pm : PopulationModel_t) (p : PRNG) :
    Catalog_t × PRNG :=
  let g1 := genGroup .YoungPopulationI pm.YoungPopulationI pm p
  let g2 := genGroup .IntermediatePopulationI pm.IntermediatePopulationI pm g1.2
  let g3 := genGroup .OldPopulationI pm.OldPopulationI pm g2.2
  let g4 := genGroup .DiskPopulationII pm.DiskPopulationII pm g3.2
  let g5 := genGroup .HaloPopulationII pm.HaloPopulationII pm g4.2
  ({ StarSystems := g1.1 ++ g2.1 ++ g3.1 ++ g4.1 ++ g5.1 }, g5.2)

/-! ## Open cluster (src/unnamed/part_001, lines 59-231) -/

/-- Zone radius percentages (src/unnamed/part_001, lines 59-66). -/
def minPctClusterCoreZone : ℝ := 0.0

/-- Upper fraction of the cluster core zone. -/
def maxPctClusterCoreZone : ℝ := 0.05

/-- Lower fraction of the tidal radius zone. -/
def minPctTidalRadiusZone : ℝ := 0.05

/-- Upper fraction of the tidal radius zone. -/
def maxPctTidalRadiusZone : ℝ := 0.2

/-- Lower fraction of the extended halo zone. -/
def minPctExtendedHaloZone : ℝ := 0.2

/-- Upper fraction of the extended halo zone. -/
def maxPctExtendedHaloZone : ℝ := 1.0

/-- The tightly-bound cluster age table of `NewOpenCluster`
(src/unnamed/part_001): `n` is the d100 roll, `u` the within-bucket
percentile (each branch of the Go switch consumes exactly one
`RollPercentile()`, so drawing it once before the dispatch is
sequence-equivalent). -/
def clusterAgeTight (n : ℤ) (u : ℝ) : ℝ :=
  if n ≤ 2 then 0.0 + 0.1 * u
  else if n ≤ 4 then 0.1 + 0.1 * u
  else if n ≤ 6 then 0.2 + 0.1 * u
  else if n ≤ 8 then 0.3 + 0.1 * u
  else if n ≤ 10 then 0.4 + 0.1 * u
  else if n ≤ 12 then 0.5 + 0.1 * u
  else if n ≤ 14 then 0.6 + 0.1 * u
  else if n ≤ 16 then 0.7 + 0.1 * u
  else if n ≤ 18 then 0.8 + 0.1 * u
  else if n ≤ 20 then 0.9 + 0.1 * u
  else if n ≤ 45 then 1.0 + 2.0 * u
  else 3.0 + 5.0 * u

/-- The loosely-bound cluster age table of `NewOpenCluster`
(src/unnamed/part_001). -/
def clusterAgeLoose (n : ℤ) (u : ℝ) : ℝ :=
  if n ≤ 21 then 0.0 + 0.1 * u
  else if n ≤ 38 then 0.1 + 0.1 * u
  else if n ≤ 52 then 0.2 + 0.1 * u
  else if n ≤ 64 then 0.3 + 0.1 * u
  else if n ≤ 73 then 0.4 + 0.1 * u
  else if n ≤ 81 then 0.5 + 0.1 * u
  else if n ≤ 87 then 0.6 + 0.1 * u
  else if n ≤ 92 then 0.7 + 0.1 * u
  else if n ≤ 96 then 0.8 + 0.1 * u
  else 0.9 + 0.1 * u

/-- Population-group assignment from the cluster age
(src/unnamed/part_001, lines 126-134). -/
def clusterPopulation (age : ℝ) : StellarPopulation_e :=
  if age < 2.0 then .YoungPopulationI
  else if age < 5.0 then .IntermediatePopulationI
  else .OldPopulationI

/-- The cluster evaporation table (src/unnamed/part_001, lines 157-180):
`(corePct, tidalPct, extendedHaloPct)` by effective age. -/
def evaporationPcts (effAge : ℝ) : ℝ × ℝ × ℝ :=
  if effAge < 0.1 then (1.00, 0.00, 0.00)
  else if effAge < 0.2 then (0.80, 0.20, 0.00)
  else if effAge < 0.3 then (0.64, 0.32, 0.04)
  else if effAge < 0.4 then (0.51, 0.38, 0.10)
  else if effAge < 0.5 then (0.41, 0.41, 0.15)
  else if effAge < 0.6 then (0.33, 0.41, 0.20)
  else if effAge < 0.7 then (0.26, 0.39, 0.25)
  else if effAge < 0.8 then (0.21, 0.37, 0.28)
  else if effAge < 0.9 then (0.17, 0.33, 0.29)
  else if effAge < 1.0 then (0.13, 0.30, 0.30)
  else (0.11, 0.27, 0.30)

/-- Raw per-zone counts of `NewOpenCluster`:
`int(pct * numberOfStarSystems)` for each zone. -/
def zoneCounts (effAge : ℝ) (total : ℝ) : ℤ × ℤ × ℤ :=
  let pcts := evaporationPcts effAge
  (goInt (pcts.1 * total), goInt (pcts.2.1 * total), goInt (pcts.2.2 * total))

/-- The remainder redistribution of `NewOpenCluster`
(src/unnamed/part_001, lines 183-188): if the three counts are still
short of the total, increment core; if still short, increment tidal. -/
def redistributeCounts (c t h : ℤ) (total : ℝ) : ℤ × ℤ × ℤ :=
  if ((c + t + h : ℤ) : ℝ) < total then
    if (((c + 1) + t + h : ℤ) : ℝ) < total then (c + 1, t + 1, h)
    else (c + 1, t, h)
  else (c, t, h)

/-- Raw zone counts followed by the remainder redistribution, exactly
as `NewOpenCluster` computes them. -/
def finalZoneCounts (effAge total : ℝ) : ℤ × ℤ × ℤ :=
  let raw := zoneCounts effAge total
  redistributeCounts raw.1 raw.2.1 raw.2.2 total

/-- The values computed by the staged part of `NewOpenCluster`
(src/unnamed/part_001, lines 68-192) before any system is created. -/
structure ClusterParams where
  isTightlyBound : Prop
  clusterAge : ℝ
  stpop : StellarPopulation_e
  clusterRadius : ℝ
  numberOfStarSystems : ℝ
  coreCount : ℤ
  tidalCount : ℤ
  extendedHaloCount : ℤ

/-- Stages 1-5 of `NewOpenCluster` (src/unnamed/part_001): binding
roll, age roll, population assignment, radius and count rolls,
effective age, evaporation lookup and remainder redistribution. -/
def clusterParams (p : PRNG) : ClusterParams × PRNG :=
  let bind3 := p.RollD6 3
  let tight := bind3.1 ≤ 5
  let d100 := bind3.2.RollD100
  let uage := d100.2.RollPercentile
  let clusterAge :=
    if tight then clusterAgeTight d100.1 uage.1 else clusterAgeLoose d100.1 uage.1
  let stpop := clusterPopulation clusterAge
  let rad2 := uage.2.RollD6 2
  let radBase := rad2.1 / 2
  let vn := rad2.2.VaryNPct 1.0 0.25
  let clusterRadius := radBase + (vn.1 - 1)
  let cnt2 := vn.2.RollD6 2
  let nss0 := cnt2.1 / 2
  let nss1 := if tight ∧ nss0 < 3.5 then (3.5 : ℝ) else nss0
  let total : ℝ := ⌊nss1 * clusterRadius ^ (3 : ℕ)⌋
  let effAge := if tight then clusterAge / 10 else clusterAge
  let fin := finalZoneCounts effAge total
  ({ isTightlyBound := tight
     clusterAge := clusterAge
     stpop := stpop
     clusterRadius := clusterRadius
     numberOfStarSystems := total
     coreCount := fin.1
     tidalCount := fin.2.1
     extendedHaloCount := fin.2.2 }, cnt2.2)

/-- One zone loop of `NewOpenCluster`: `count` systems, each with age
`Vary5Pct(clusterAge)` (seeded stream) and position
`GenZonedXYZ(minPct, maxPct).Scale(clusterRadius)` (which draws from
the global stream, see `PRNG.GenZonedXYZ`). -/
def genZone (stpop : StellarPopulation_e) (clusterAge clusterRadius
    minPct maxPct : ℝ) : ℕ → PRNG → PRNG → List StarSystem_t × PRNG × PRNG
  | 0, p, g => ([], p, g)
  | n + 1, p, g =>
    let a := p.Vary5Pct clusterAge
    let c := PRNG.GenZonedXYZ minPct maxPct a.2 g
    let rest := genZone stpop clusterAge clusterRadius minPct maxPct n c.2.1 c.2.2
    ({ Population := stpop
       Age := a.1
       Coordinates := c.1.Scale clusterRadius } :: rest.1, rest.2)

/-- The three zone loops of `NewOpenCluster` (src/unnamed/part_001,
lines 193-231). -/
def buildClusterCatalog (prm : ClusterParams) (p g : PRNG) :
    Catalog_t × PRNG × PRNG :=
  let core := genZone prm.stpop prm.clusterAge prm.clusterRadius
    minPctClusterCoreZone maxPctClusterCoreZone prm.coreCount.toNat p g
  let tidal := genZone prm.stpop prm.clusterAge prm.clusterRadius
    minPctTidalRadiusZone maxPctTidalRadiusZone prm.tidalCount.toNat
    core.2.1 core.2.2
  let halo := genZone prm.stpop prm.clusterAge prm.clusterRadius
    minPctExtendedHaloZone maxPctExtendedHaloZone prm.extendedHaloCount.toNat
    tidal.2.1 tidal.2.2
  ({ StarSystems := core.1 ++ tidal.1 ++ halo.1 }, halo.2)

/-- `NewOpenCluster` (src/unnamed/part_001, lines 68-231), with the
package-global source (used by `GenZonedXYZ`) threaded as `g`. -/
def NewOpenCluster (p g : PRNG) : Catalog_t × PRNG × PRNG :=
  let prm := clusterParams p
  buildClusterCatalog prm.1 prm.2 g

/-! ## Sorting (src/unnamed/part_001, lines 244-251)

`Catalog_t.Sort` delegates wholly to Go's `sort.Slice` with the
comparator below.  `sort.Slice` is outside this repository; its
documented contract is that the result is a permutation of the input
that is sorted with respect to the comparator, and it is explicitly
documented as NOT stable.  We therefore model the sort relationally by
that contract. -/

/-- The comparator of `Catalog_t.Sort` (src/unnamed/part_001, lines
245-250): strictly less when ages are equal and the population enum is
smaller, or when the age is smaller. -/
def lessAgePop (a b : StarSystem_t) : Prop :=
  if a.Age = b.Age then a.Population.popIdx < b.Population.popIdx
  else a.Age < b.Age

/-- A list is sorted for `sort.Slice` when no later element is strictly
less than an earlier one. -/
def SortedByAgePop (l : List StarSystem_t) : Prop :=
  l.Pairwise (fun a b => ¬ lessAgePop b a)

/-- Modelled from the Go standard library contract of `sort.Slice`
(the sorting code itself is not part of this repository): the result
is a permutation of the input, sorted under the comparator.  Stability
is deliberately NOT part of this relation because `sort.Slice` is
documented as unstable. -/
def SortSliceResult (l lres : List StarSystem_t) : Prop :=
  lres.Perm l ∧ SortedByAgePop lres

/-- Sort key of a system: age, then population enum index
(lexicographic). -/
def sortKey (ss : StarSystem_t) : ℝ ×ₗ ℕ :=
  toLex (ss.Age, ss.Population.popIdx)

/-! ## Analysis helpers and concrete inputs used by the theorems -/

/-- The population model of the generated catalog (the identity the
generator stores on success); a fresh default model when construction
failed. -/
def generatorPm : Except Error Generator → PopulationModel_t
  | .ok g => g.pm
  | .error _ => {}

/-- The derived map radius of a successful construction; the sentinel
`1` (a positive value) when construction failed, so that proving the
radius non-positive forces the success branch. -/
def generatorRadius : Except Error Generator → ℝ
  | .ok g => g.Radius
  | .error _ => 1

/-- Upper age limit `base_age + age_range` of each population group,
from the calibration table of src/population_model.go. -/
def ageCap : StellarPopulation_e → ℝ
  | .YoungPopulationI => 2.0
  | .IntermediatePopulationI => 5.0
  | .OldPopulationI => 8.0
  | .DiskPopulationII => 9.5
  | .HaloPopulationII => 12.5

/-- A population model whose five rows carry the `(BaseAge, AgeRange)`
pairs of the calibration table (both the basic and the advanced table
do). -/
def StandardAges (pm : PopulationModel_t) : Prop :=
  pm.YoungPopulationI.BaseAge = 0 ∧ pm.YoungPopulationI.AgeRange = 2 ∧
  pm.IntermediatePopulationI.BaseAge = 2 ∧ pm.IntermediatePopulationI.AgeRange = 3 ∧
  pm.OldPopulationI.BaseAge = 5 ∧ pm.OldPopulationI.AgeRange = 3 ∧
  pm.DiskPopulationII.BaseAge = 8 ∧ pm.DiskPopulationII.AgeRange = 1.5 ∧
  pm.HaloPopulationII.BaseAge = 9.5 ∧ pm.HaloPopulationII.AgeRange = 3

/-- Every system of the list has a non-negative age not exceeding the
`base_age + age_range` cap of its group. -/
def CatalogAgesOK (l : List StarSystem_t) : Prop :=
  ∀ ss ∈ l, 0 ≤ ss.Age ∧ ss.Age ≤ ageCap ss.Population

/-- Every system of the list has a non-negative age strictly below
`1.05 ×` the `base_age + age_range` cap of its group (the open-cluster
ages carry a ±5% variance on top of the cluster age). -/
def ClusterAgesOK (l : List StarSystem_t) : Prop :=
  ∀ ss ∈ l, 0 ≤ ss.Age ∧ ss.Age < 1.05 * ageCap ss.Population

/-- The all-zeros stream: a well-formed pseudo-random state. -/
def pZero : PRNG := ⟨fun _ => 0, 0⟩

/-- A global-source stream whose first draw is `1/8` (all others `0`). -/
def gC1 : PRNG := ⟨fun i => if i = 0 then (1 : ℝ) / 8 else 0, 0⟩

/-- Seeded stream driving `NewOpenCluster` to a tightly-bound cluster of
age `1.98` (group Young-I), radius `1.025`, `3` total systems, and a
first core system whose ±5% age variance rolls high (`+5%`). -/
def sC6 : ℕ → ℝ := fun i =>
  if i = 3 then 0.3
  else if i = 4 then 0.49
  else if i = 7 ∨ i = 8 ∨ i = 9 then 0.5
  else if i = 12 ∨ i = 13 then 5 / 6
  else 0

/-- The pseudo-random state over `sC6`. -/
def pC6 : PRNG := ⟨sC6, 0⟩

/-- Seeded stream driving `NewOpenCluster` to a loosely-bound cluster of
age `0.65`, radius `299/120`, and `30` total systems, of which the
evaporation zones only retain `27`. -/
def sC3 : ℕ → ℝ := fun i =>
  if i = 0 ∨ i = 1 ∨ i = 2 then 5 / 6
  else if i = 3 then 0.82
  else if i = 4 then 0.5
  else if i = 5 then 1 / 6
  else if i = 6 then 2 / 6
  else if i = 7 ∨ i = 8 then 2 / 6
  else if i = 9 then 3 / 6
  else if i = 11 then 2 / 6
  else 0

/-- The pseudo-random state over `sC3`. -/
def pC3 : PRNG := ⟨sC3, 0⟩

/-- A system used by the sorting theorems: Young-I, age 1, at the
origin. -/
def ssP : StarSystem_t := ⟨.YoungPopulationI, 1, ⟨0, 0, 0⟩⟩

/-- A system that ties with `ssP` on both age and population but is a
distinct element (different coordinates). -/
def ssQ : StarSystem_t := ⟨.YoungPopulationI, 1, ⟨1, 0, 0⟩⟩

/-- A Young-I system of age 2 used by the sorting witness. -/
def ssR : StarSystem_t := ⟨.YoungPopulationI, 2, ⟨0, 0, 0⟩⟩

end

/-! ## General lemmas about the embedding -/

noncomputable section

/-- Consuming a draw does not change the underlying stream. -/
theorem Float64_stream (p : PRNG) : (p.Float64).2.stream = p.stream := rfl

/-- `IntN` does not change the underlying stream. -/
theorem IntN_stream (n : ℕ) (p : PRNG) : (PRNG.IntN n p).2.stream = p.stream := rfl

/-- The dice loop does not change the underlying stream. -/
theorem rollDiceSum_stream (s : ℕ) : ∀ (n : ℕ) (p : PRNG),
    (rollDiceSum s n p).2.stream = p.stream
  | 0, _ => rfl
  | n + 1, p => rollDiceSum_stream s n _

/-- `RollD6` does not change the underlying stream. -/
theorem RollD6_stream (n : ℕ) (p : PRNG) :
    (p.RollD6 n).2.stream = p.stream := rollDiceSum_stream 6 n p

/-- `RollD100` does not change the underlying stream. -/
theorem RollD100_stream (p : PRNG) : (p.RollD100).2.stream = p.stream := rfl

/-- `RollPercentile` does not change the underlying stream. -/
theorem RollPercentile_stream (p : PRNG) :
    (p.RollPercentile).2.stream = p.stream := rfl

/-- `Vary5Pct` does not change the underlying stream. -/
theorem Vary5Pct_stream (f : ℝ) (p : PRNG) :
    (p.Vary5Pct f).2.stream = p.stream := rollDiceSum_stream 6 2 p

/-- `Vary10Pct` does not change the underlying stream. -/
theorem Vary10Pct_stream (f : ℝ) (p : PRNG) :
    (p.Vary10Pct f).2.stream = p.stream := rollDiceSum_stream 6 4 p

/-- `VaryNPct` does not change the underlying stream. -/
theorem VaryNPct_stream (f pct : ℝ) (p : PRNG) :
    (p.VaryNPct f pct).2.stream = p.stream := rollDiceSum_stream 6 3 p

/-- `GenXYZ` does not change the underlying stream. -/
theorem GenXYZ_stream (p : PRNG) : (p.GenXYZ).2.stream = p.stream := rfl

/-- `GenZonedXYZ` returns the seeded receiver untouched. -/
theorem GenZonedXYZ_receiver (minPct maxPct : ℝ) (p g : PRNG) :
    (PRNG.GenZonedXYZ minPct maxPct p g).2.1 = p := rfl

/-- `GenZonedXYZ` does not change the global stream function. -/
theorem GenZonedXYZ_global_stream (minPct maxPct : ℝ) (p g : PRNG) :
    (PRNG.GenZonedXYZ minPct maxPct p g).2.2.stream = g.stream := rfl

/-- Well-formedness only depends on the stream. -/
theorem wellFormed_of_stream_eq {p q : PRNG} (h : p.stream = q.stream)
    (hq : q.WellFormed) : p.WellFormed := by
  intro i
  rw [h]
  exact hq i

/-- A single modelled die lands in `[1, sides]` when the stream is
well-formed and `sides` is positive. -/
theorem IntN_bounds {p : PRNG} (hp : p.WellFormed) {n : ℕ} (hn : 0 < n) :
    0 ≤ (PRNG.IntN n p).1 ∧ (PRNG.IntN n p).1 ≤ (n : ℤ) - 1 := by
  have hu := hp p.idx
  unfold PRNG.IntN
  constructor
  · exact Int.floor_nonneg.mpr (mul_nonneg hu.1 (by positivity))
  · have hlt : ⌊p.stream p.idx * (n : ℝ)⌋ < (n : ℤ) := by
      apply Int.floor_lt.mpr
      calc p.stream p.idx * (n : ℝ) < 1 * (n : ℝ) := by
            apply mul_lt_mul_of_pos_right hu.2
            exact_mod_cast hn
        _ = (n : ℝ) := one_mul _
    omega

/-- The sum of `n` modelled six-sided dice lies in `[n, 6n]`. -/
theorem rollDiceSum_bounds : ∀ (n : ℕ) {p : PRNG}, p.WellFormed →
    (n : ℤ) ≤ (rollDiceSum 6 n p).1 ∧ (rollDiceSum 6 n p).1 ≤ 6 * n
  | 0, _, _ => by simp [rollDiceSum]
  | n + 1, p, hp => by
    have hd := IntN_bounds hp (n := 6) (by norm_num)
    have hrest := rollDiceSum_bounds n
      (p := (PRNG.IntN 6 p).2) (wellFormed_of_stream_eq (IntN_stream 6 p) hp)
    simp only [rollDiceSum]
    push_cast
    omega

/-- The `RollD6` result lies in `[n, 6n]` for a well-formed stream. -/
theorem RollD6_bounds {p : PRNG} (hp : p.WellFormed) (n : ℕ) :
    (n : ℝ) ≤ (p.RollD6 n).1 ∧ (p.RollD6 n).1 ≤ 6 * n := by
  have h := rollDiceSum_bounds n hp
  constructor
  · show (n : ℝ) ≤ ((rollDiceSum 6 n p).1 : ℝ)
    exact_mod_cast h.1
  · show ((rollDiceSum 6 n p).1 : ℝ) ≤ 6 * n
    exact_mod_cast h.2

/-- The `Vary5Pct` multiplier stays within `[0.95, 1.05]` of the value:
for a non-negative input the result is non-negative and at most
`1.05 ×` the input. -/
theorem Vary5Pct_bounds {p : PRNG} (hp : p.WellFormed) {f : ℝ} (hf : 0 ≤ f) :
    0 ≤ (p.Vary5Pct f).1 ∧ (p.Vary5Pct f).1 ≤ 1.05 * f := by
  have h := RollD6_bounds hp 2
  have h1 : (2 : ℝ) ≤ (p.RollD6 2).1 := by exact_mod_cast h.1
  have h2 : (p.RollD6 2).1 ≤ 12 := by
    have := h.2
    norm_num at this
    linarith
  show 0 ≤ f * (0.93 + (p.RollD6 2).1 / 100.0) ∧
    f * (0.93 + (p.RollD6 2).1 / 100.0) ≤ 1.05 * f
  constructor
  · apply mul_nonneg hf
    linarith
  · nlinarith

/-- The real cube root of a negative number is negative. -/
theorem rcbrt_neg_of_neg {x : ℝ} (h : x < 0) : rcbrt x < 0 := by
  rw [rcbrt, if_pos h]
  have hpos : (0 : ℝ) < (-x) ^ ((1 : ℝ) / 3) :=
    Real.rpow_pos_of_pos (by linarith) _
  linarith

/-! ## Claim theorems -/

/-- C9: for every system count and every tweak outside its documented
window — outside `(0,5]` for Earth-like sizing, outside `(0,1]` for
reference-neighborhood and position-dependent sizing — the computed
volume equals the volume computed with tweak `0`: out-of-range tweaks
are silently ignored and never an error. -/
theorem C9_out_of_range_tweak_is_ignored (n : ℤ) (r h tweak : ℝ) :
    (¬ (0 < tweak ∧ tweak ≤ 5) →
      VolumeForEarthLikeSystems n tweak = VolumeForEarthLikeSystems n 0) ∧
    (¬ (0 < tweak ∧ tweak ≤ 1) →
      VolumeForSolLikeNeighborhood n tweak = VolumeForSolLikeNeighborhood n 0) ∧
    (¬ (0 < tweak ∧ tweak ≤ 1) →
      VolumeForOtherNeighborhoods n r h tweak = VolumeForOtherNeighborhoods n r h 0) := by
  refine ⟨fun hbad => ?_, fun hbad => ?_, fun hbad => ?_⟩
  · simp only [VolumeForEarthLikeSystems]
    rw [if_neg hbad, if_neg (by norm_num)]
  · simp only [VolumeForSolLikeNeighborhood]
    rw [if_neg hbad, if_neg (by norm_num)]
  · simp only [VolumeForOtherNeighborhoods]
    rw [if_neg hbad, if_neg (by norm_num)]

/-- Witness for C9, at `n = 7`, `tweak = 6` (outside both windows). -/
theorem C9_out_of_range_tweak_is_ignored_witness :
    VolumeForEarthLikeSystems 7 6 = VolumeForEarthLikeSystems 7 0 ∧
    VolumeForSolLikeNeighborhood 7 6 = VolumeForSolLikeNeighborhood 7 0 ∧
    VolumeForOtherNeighborhoods 7 2 3 6 = VolumeForOtherNeighborhoods 7 2 3 0 :=
  ⟨(C9_out_of_range_tweak_is_ignored 7 2 3 6).1 (by norm_num),
   (C9_out_of_range_tweak_is_ignored 7 2 3 6).2.1 (by norm_num),
   (C9_out_of_range_tweak_is_ignored 7 2 3 6).2.2 (by norm_num)⟩

/-- C7: generator construction fails exactly when the random source is
nil or a supplied galactic-offset option violates
`300 ≤ |radial| ≤ 30000` or `|vertical| ≤ 1250`; with a non-nil source
and a valid (or absent) offset option it succeeds. -/
theorem C7_construction_error_characterization (n : ℤ) (p : Option PRNG)
    (cat : Catalog_e) (r h : ℝ) :
    ((NewV2 n p cat []).isOk = true ↔ p ≠ none) ∧
    ((NewV2 n p cat [WithOffset r h]).isOk = true ↔
      p ≠ none ∧ 300 ≤ |r| ∧ |r| ≤ 30000 ∧ |h| ≤ 1250) := by
  cases p with
  | none =>
    constructor
    · simp [NewV2, Except.isOk, Except.toBool]
    · simp [NewV2, Except.isOk, Except.toBool]
  | some src =>
    constructor
    · simp [NewV2, applyOptions, Except.isOk, Except.toBool]
    · simp only [NewV2, applyOptions, WithOffset]
      split_ifs with h1 h2 h3
      · constructor
        · intro hfalse
          simp [Except.isOk, Except.toBool] at hfalse
        · rintro ⟨-, hge, -, -⟩
          exact absurd h1 (not_lt.mpr hge)
      · constructor
        · intro hfalse
          simp [Except.isOk, Except.toBool] at hfalse
        · rintro ⟨-, -, hle, -⟩
          exact absurd h2 (not_lt.mpr hle)
      · constructor
        · intro hfalse
          simp [Except.isOk, Except.toBool] at hfalse
        · rintro ⟨-, -, -, hle⟩
          exact absurd h3 (not_lt.mpr hle)
      · constructor
        · intro _
          exact ⟨by simp, not_lt.mp h1, not_lt.mp h2, not_lt.mp h3⟩
        · intro _
          simp [Except.isOk, Except.toBool]

/-- C2 (evidence of the divergence): whenever construction with an
offset option succeeds, the result is **identical** to construction
without the option, and in particular its population model is the
Sol-like-neighborhood (basic) table, not the position-dependent one:
the validated offsets are discarded. -/
theorem C2_offset_option_never_selects_advanced_model (n : ℤ) (src : PRNG)
    (cat : Catalog_e) (r h : ℝ)
    (hok : (New n (some src) cat [WithOffset r h]).isOk = true) :
    New n (some src) cat [WithOffset r h] = New n (some src) cat [] ∧
    generatorPm (New n (some src) cat [WithOffset r h]) =
      PopulationModelForSolLikeNeighborhood n 0 := by
  simp only [New, applyOptions, WithOffset] at hok ⊢
  split_ifs at hok ⊢ with h1 h2 h3
  · simp [Except.isOk, Except.toBool] at hok
  · simp [Except.isOk, Except.toBool] at hok
  · simp [Except.isOk, Except.toBool] at hok
  · exact ⟨rfl, rfl⟩

/-- Witness for C2, at `n = 100` and the valid offset `(8000, 20)`. -/
theorem C2_offset_option_never_selects_advanced_model_witness :
    New 100 (some pZero) .ReferenceCatalog [WithOffset 8000 20] =
      New 100 (some pZero) .ReferenceCatalog [] ∧
    generatorPm (New 100 (some pZero) .ReferenceCatalog [WithOffset 8000 20]) =
      PopulationModelForSolLikeNeighborhood 100 0 :=
  C2_offset_option_never_selects_advanced_model 100 pZero .ReferenceCatalog 8000 20
    (by simp [New, applyOptions, WithOffset, Except.isOk, Except.toBool]; norm_num)

/-- C10: a negative target count is never validated: construction still
succeeds, the sizing formulas return a negative volume
(`VolumeForEarthLikeSystems n 0 = 300 n < 0`), and the generator
derives a non-positive radius, all without any error. -/
theorem C10_negative_count_unvalidated (n : ℤ) (src : PRNG) (cat : Catalog_e)
    (hn : n < 0) :
    VolumeForEarthLikeSystems n 0 = 300 * (n : ℝ) ∧
    VolumeForEarthLikeSystems n 0 < 0 ∧
    VolumeForSolLikeNeighborhood n 0 < 0 ∧
    (New n (some src) cat []).isOk = true ∧
    generatorRadius (New n (some src) cat []) ≤ 0 := by
  have hnR : (n : ℝ) < 0 := by exact_mod_cast hn
  have hV : (PopulationModelForSolLikeNeighborhood n 0).Volume = (n : ℝ) * 12 := by
    simp only [PopulationModelForSolLikeNeighborhood]
    rw [if_neg (by norm_num)]
    norm_num
  refine ⟨?_, ?_, ?_, rfl, ?_⟩
  · simp only [VolumeForEarthLikeSystems]
    rw [if_neg (by norm_num)]
    ring
  · simp only [VolumeForEarthLikeSystems]
    rw [if_neg (by norm_num)]
    nlinarith
  · simp only [VolumeForSolLikeNeighborhood]
    rw [if_neg (by norm_num)]
    nlinarith
  · show ((⌈rcbrt (3 * (PopulationModelForSolLikeNeighborhood n 0).Volume /
      (4 * Real.pi))⌉ : ℤ) : ℝ) ≤ 0
    have harg : 3 * (PopulationModelForSolLikeNeighborhood n 0).Volume /
        (4 * Real.pi) < 0 := by
      rw [hV]
      apply div_neg_of_neg_of_pos
      · nlinarith
      · positivity
    have hc := rcbrt_neg_of_neg harg
    have hceil : (⌈rcbrt (3 * (PopulationModelForSolLikeNeighborhood n 0).Volume /
        (4 * Real.pi))⌉ : ℤ) ≤ 0 := by
      rw [show (0 : ℤ) = ((0 : ℕ) : ℤ) from rfl]
      apply Int.ceil_le.mpr
      push_cast
      linarith
    exact_mod_cast hceil

/-- Witness for C10, at `n = -1`. -/
theorem C10_negative_count_unvalidated_witness :
    VolumeForEarthLikeSystems (-1) 0 = 300 * ((-1 : ℤ) : ℝ) ∧
    VolumeForEarthLikeSystems (-1) 0 < 0 ∧
    VolumeForSolLikeNeighborhood (-1) 0 < 0 ∧
    (New (-1) (some pZero) .ReferenceCatalog []).isOk = true ∧
    generatorRadius (New (-1) (some pZero) .ReferenceCatalog []) ≤ 0 :=
  C10_negative_count_unvalidated (-1) pZero .ReferenceCatalog (by norm_num)

/-- C8: the combined density of the position-dependent table is
strictly positive for every non-negative input, and strictly
decreasing as either the radial or the vertical offset magnitude
increases while the other is held fixed. -/
theorem C8_combined_density_positive_and_decreasing (r h r1 r2 h1 h2 : ℝ) :
    (0 ≤ r → 0 ≤ h → 0 < (AdvancedPopulationModelTable r h).CombinedDensity) ∧
    (0 ≤ r1 → r1 < r2 →
      (AdvancedPopulationModelTable r2 h).CombinedDensity <
        (AdvancedPopulationModelTable r1 h).CombinedDensity) ∧
    (0 ≤ h1 → h1 < h2 →
      (AdvancedPopulationModelTable r h2).CombinedDensity <
        (AdvancedPopulationModelTable r h1).CombinedDensity) := by
  refine ⟨fun _ _ => ?_, fun _ hr => ?_, fun hh1 hh2 => ?_⟩
  · simp only [AdvancedPopulationModelTable]
    norm_num
    positivity
  · simp only [AdvancedPopulationModelTable]
    norm_num
    have hexp : Real.exp (-(r2 / 3500)) < Real.exp (-(r1 / 3500)) :=
      Real.exp_lt_exp.mpr (by linarith)
    have t1 : 0.373 * Real.exp (-(r2 / 3500)) * Real.exp (-(|h| / 200)) <
        0.373 * Real.exp (-(r1 / 3500)) * Real.exp (-(|h| / 200)) :=
      mul_lt_mul_of_pos_right
        (mul_lt_mul_of_pos_left hexp (by norm_num)) (Real.exp_pos _)
    have t2 : 0.280 * Real.exp (-(r2 / 3500)) * Real.exp (-(|h| / 400)) <
        0.280 * Real.exp (-(r1 / 3500)) * Real.exp (-(|h| / 400)) :=
      mul_lt_mul_of_pos_right
        (mul_lt_mul_of_pos_left hexp (by norm_num)) (Real.exp_pos _)
    have t3 : 0.160 * Real.exp (-(r2 / 3500)) * Real.exp (-(|h| / 700)) <
        0.160 * Real.exp (-(r1 / 3500)) * Real.exp (-(|h| / 700)) :=
      mul_lt_mul_of_pos_right
        (mul_lt_mul_of_pos_left hexp (by norm_num)) (Real.exp_pos _)
    have t4 : 0.0339 * Real.exp (-(r2 / 3500)) * Real.exp (-(|h| / 1000)) <
        0.0339 * Real.exp (-(r1 / 3500)) * Real.exp (-(|h| / 1000)) :=
      mul_lt_mul_of_pos_right
        (mul_lt_mul_of_pos_left hexp (by norm_num)) (Real.exp_pos _)
    have t5 : 0.00339 * Real.exp (-(r2 / 3500)) * Real.exp (-(|h| / 2000)) <
        0.00339 * Real.exp (-(r1 / 3500)) * Real.exp (-(|h| / 2000)) :=
      mul_lt_mul_of_pos_right
        (mul_lt_mul_of_pos_left hexp (by norm_num)) (Real.exp_pos _)
    linarith
  · simp only [AdvancedPopulationModelTable]
    norm_num
    rw [abs_of_nonneg hh1, abs_of_nonneg (by linarith : (0 : ℝ) ≤ h2)]
    have e1 : Real.exp (-(h2 / 200)) < Real.exp (-(h1 / 200)) :=
      Real.exp_lt_exp.mpr (by linarith)
    have e2 : Real.exp (-(h2 / 400)) < Real.exp (-(h1 / 400)) :=
      Real.exp_lt_exp.mpr (by linarith)
    have e3 : Real.exp (-(h2 / 700)) < Real.exp (-(h1 / 700)) :=
      Real.exp_lt_exp.mpr (by linarith)
    have e4 : Real.exp (-(h2 / 1000)) < Real.exp (-(h1 / 1000)) :=
      Real.exp_lt_exp.mpr (by linarith)
    have e5 : Real.exp (-(h2 / 2000)) < Real.exp (-(h1 / 2000)) :=
      Real.exp_lt_exp.mpr (by linarith)
    have hE : 0 < Real.exp (-(r / 3500)) := Real.exp_pos _
    have t1 : 0.373 * Real.exp (-(r / 3500)) * Real.exp (-(h2 / 200)) <
        0.373 * Real.exp (-(r / 3500)) * Real.exp (-(h1 / 200)) :=
      mul_lt_mul_of_pos_left e1 (by positivity)
    have t2 : 0.280 * Real.exp (-(r / 3500)) * Real.exp (-(h2 / 400)) <
        0.280 * Real.exp (-(r / 3500)) * Real.exp (-(h1 / 400)) :=
      mul_lt_mul_of_pos_left e2 (by positivity)
    have t3 : 0.160 * Real.exp (-(r / 3500)) * Real.exp (-(h2 / 700)) <
        0.160 * Real.exp (-(r / 3500)) * Real.exp (-(h1 / 700)) :=
      mul_lt_mul_of_pos_left e3 (by positivity)
    have t4 : 0.0339 * Real.exp (-(r / 3500)) * Real.exp (-(h2 / 1000)) <
        0.0339 * Real.exp (-(r / 3500)) * Real.exp (-(h1 / 1000)) :=
      mul_lt_mul_of_pos_left e4 (by positivity)
    have t5 : 0.00339 * Real.exp (-(r / 3500)) * Real.exp (-(h2 / 2000)) <
        0.00339 * Real.exp (-(r / 3500)) * Real.exp (-(h1 / 2000)) :=
      mul_lt_mul_of_pos_left e5 (by positivity)
    linarith

/-- Witness for C8, at `(r, h) = (0, 0)` with increases to `1`. -/
theorem C8_combined_density_positive_and_decreasing_witness :
    0 < (AdvancedPopulationModelTable 0 0).CombinedDensity ∧
    (AdvancedPopulationModelTable 1 0).CombinedDensity <
      (AdvancedPopulationModelTable 0 0).CombinedDensity ∧
    (AdvancedPopulationModelTable 0 1).CombinedDensity <
      (AdvancedPopulationModelTable 0 0).CombinedDensity :=
  ⟨(C8_combined_density_positive_and_decreasing 0 0 0 1 0 1).1
      (le_refl 0) (le_refl 0),
   (C8_combined_density_positive_and_decreasing 0 0 0 1 0 1).2.1
      (le_refl 0) (by norm_num),
   (C8_combined_density_positive_and_decreasing 0 0 0 1 0 1).2.2
      (le_refl 0) (by norm_num)⟩

/-- C5: merging appends to the target exactly the systems of the
source, in order, each a copy translated component-wise by the offset;
the target's own prefix is unchanged, so the merged catalog holds
`len(target) + len(source)` systems.  (The embedding is purely
functional; in the Go source the receiver is extended with freshly
allocated copies and `other` is only read, never written.) -/
theorem C5_merge_appends_translated_copies (c other : Catalog_t)
    (offset : Coordinates) :
    (c.Merge other offset).StarSystems.length =
      c.StarSystems.length + other.StarSystems.length ∧
    (c.Merge other offset).StarSystems.take c.StarSystems.length =
      c.StarSystems ∧
    (c.Merge other offset).StarSystems.drop c.StarSystems.length =
      other.StarSystems.map (fun ss =>
        { Population := ss.Population
          Age := ss.Age
          Coordinates := ⟨ss.Coordinates.X + offset.X,
            ss.Coordinates.Y + offset.Y,
            ss.Coordinates.Z + offset.Z⟩ }) := by
  refine ⟨?_, ?_, ?_⟩
  · simp [Catalog_t.Merge]
  · simp [Catalog_t.Merge, List.take_left]
  · simp [Catalog_t.Merge, List.drop_left, Coordinates.Translate]

/-- Auxiliary fact: the real cube root of `1/8` is `1/2`. -/
theorem rcbrt_one_eighth : rcbrt ((1 : ℝ) / 8) = 1 / 2 := by
  rw [rcbrt, if_neg (by norm_num)]
  have h8 : ((1 : ℝ) / 8) = ((1 : ℝ) / 2) ^ ((3 : ℕ) : ℝ) := by
    rw [Real.rpow_natCast]
    norm_num
  rw [h8, ← Real.rpow_mul (by norm_num : (0 : ℝ) ≤ 1 / 2)]
  norm_num

/-- The real cube root of `0` is `0`. -/
theorem rcbrt_zero : rcbrt 0 = 0 := by
  rw [rcbrt, if_neg (by norm_num)]
  exact Real.zero_rpow (by norm_num)

/-- C1 fails on the code: `GenZonedXYZ` ignores the seeded receiver
entirely (first conjunct: its output never depends on the receiver
state) and instead consumes the package-global source, so two
generators with identical seeds can produce different open-cluster
coordinates when the global source differs (second conjunct: a
concrete pair of global streams separating the outputs under the same
seeded state). -/
theorem C1_genZonedXYZ_uses_global_source :
    (∀ (pa pb g : PRNG) (minPct maxPct : ℝ),
      (PRNG.GenZonedXYZ minPct maxPct pa g).1 =
        (PRNG.GenZonedXYZ minPct maxPct pb g).1) ∧
    (PRNG.GenZonedXYZ 0 1 pZero pZero).1 ≠
      (PRNG.GenZonedXYZ 0 1 pZero gC1).1 := by
  constructor
  · intro pa pb g minPct maxPct
    rfl
  · have hL : (PRNG.GenZonedXYZ 0 1 pZero pZero).1.Z = 0 := by
      show rcbrt (pZero.stream 0 * ((1 : ℝ) ^ (3 : ℕ) - (0 : ℝ) ^ (3 : ℕ)) +
          (0 : ℝ) ^ (3 : ℕ)) *
        Real.cos (Real.arccos (2 * pZero.stream (0 + 1 + 1) - 1)) = 0
      rw [show pZero.stream 0 * ((1 : ℝ) ^ (3 : ℕ) - (0 : ℝ) ^ (3 : ℕ)) +
          (0 : ℝ) ^ (3 : ℕ) = 0 by simp [pZero]]
      rw [rcbrt_zero, zero_mul]
    have hR : (PRNG.GenZonedXYZ 0 1 pZero gC1).1.Z = -(1 / 2) := by
      show rcbrt (gC1.stream 0 * ((1 : ℝ) ^ (3 : ℕ) - (0 : ℝ) ^ (3 : ℕ)) +
          (0 : ℝ) ^ (3 : ℕ)) *
        Real.cos (Real.arccos (2 * gC1.stream (0 + 1 + 1) - 1)) = -(1 / 2)
      rw [show gC1.stream 0 * ((1 : ℝ) ^ (3 : ℕ) - (0 : ℝ) ^ (3 : ℕ)) +
          (0 : ℝ) ^ (3 : ℕ) = 1 / 8 by norm_num [gC1]]
      rw [show (2 : ℝ) * gC1.stream (0 + 1 + 1) - 1 = -1 by norm_num [gC1]]
      rw [rcbrt_one_eighth, Real.arccos_neg_one, Real.cos_pi]
      norm_num
    intro heq
    have hZ := congrArg Coordinates.Z heq
    rw [hL, hR] at hZ
    norm_num at hZ

/-- The comparator rejects `b < a` exactly when the sort key of `a` is
at most that of `b` (the key order is total). -/
theorem not_lessAgePop_iff (a b : StarSystem_t) :
    ¬ lessAgePop b a ↔ sortKey a ≤ sortKey b := by
  unfold lessAgePop sortKey
  rw [Prod.Lex.le_iff]
  rcases eq_or_ne b.Age a.Age with he | hne
  · rw [if_pos he]
    constructor
    · intro hnot
      exact Or.inr ⟨he.symm, not_lt.mp hnot⟩
    · rintro (hlt | ⟨-, hle⟩)
      · exact absurd hlt (by rw [he]; exact lt_irrefl _)
      · exact not_lt.mpr hle
  · rw [if_neg hne]
    constructor
    · intro hnot
      exact Or.inl (lt_of_le_of_ne (not_lt.mp hnot) (Ne.symm hne))
    · rintro (hlt | ⟨heq, -⟩)
      · exact not_lt.mpr (le_of_lt hlt)
      · exact absurd heq.symm hne

/-- Comparator-sortedness is sortedness of the key sequence. -/
theorem sortedByAgePop_iff_keys (l : List StarSystem_t) :
    SortedByAgePop l ↔ (l.map sortKey).Sorted (· ≤ ·) := by
  unfold SortedByAgePop List.Sorted
  rw [List.pairwise_map]
  constructor
  · intro hp
    exact hp.imp fun hab => (not_lessAgePop_iff _ _).mp hab
  · intro hp
    exact hp.imp fun hab => (not_lessAgePop_iff _ _).mpr hab

/-- C4 (amended): any outcome admitted by the `sort.Slice` contract is
a permutation of the catalog sorted ascending by age with ties broken
by ascending population order; and sorting an already-sorted catalog
reproduces the identical `(age, population)` key sequence — but only
up to permutation of systems tying on both keys, because `sort.Slice`
is not stable. -/
theorem C4_sort_contract_properties (l lres : List StarSystem_t)
    (h : SortSliceResult l lres) :
    SortedByAgePop lres ∧ lres.Perm l ∧
    (SortedByAgePop l → lres.map sortKey = l.map sortKey) := by
  refine ⟨h.2, h.1, fun hl => ?_⟩
  exact List.eq_of_perm_of_sorted (h.1.map sortKey)
    ((sortedByAgePop_iff_keys lres).mp h.2)
    ((sortedByAgePop_iff_keys l).mp hl)

/-- Witness for C4, on the sorted two-system catalog `[ssP, ssR]`. -/
theorem C4_sort_contract_properties_witness :
    SortedByAgePop [ssP, ssR] ∧
    ([ssP, ssR] : List StarSystem_t).Perm [ssP, ssR] ∧
    [ssP, ssR].map sortKey = [ssP, ssR].map sortKey := by
  have hsorted : SortedByAgePop [ssP, ssR] := by
    unfold SortedByAgePop
    refine List.Pairwise.cons ?_ (List.Pairwise.cons (by simp) List.Pairwise.nil)
    intro b hb
    rw [List.mem_singleton] at hb
    subst hb
    unfold lessAgePop ssP ssR
    norm_num
  have h := C4_sort_contract_properties [ssP, ssR] [ssP, ssR]
    ⟨List.Perm.refl _, hsorted⟩
  exact ⟨h.1, h.2.1, h.2.2 hsorted⟩

/-- C4 counterexample: on the already-sorted catalog `[ssP, ssQ]`
(two systems tying exactly on age and population but distinct in
coordinates), the reversed order `[ssQ, ssP]` also satisfies the
`sort.Slice` contract, so the contract the code relies on does not
deliver the claimed stability or order-identical idempotence. -/
theorem C4_sort_not_stable_counterexample :
    SortSliceResult [ssP, ssQ] [ssQ, ssP] ∧
    SortedByAgePop [ssP, ssQ] ∧
    ([ssQ, ssP] : List StarSystem_t) ≠ [ssP, ssQ] := by
  have htie : ∀ a b : StarSystem_t, a ∈ ([ssP, ssQ] : List StarSystem_t) →
      b ∈ ([ssP, ssQ] : List StarSystem_t) → ¬ lessAgePop a b := by
    intro a b ha hb
    simp only [List.mem_cons, List.mem_singleton, List.not_mem_nil, or_false] at ha hb
    rcases ha with rfl | rfl <;> rcases hb with rfl | rfl <;>
      simp [lessAgePop, ssP, ssQ, StellarPopulation_e.popIdx]
  refine ⟨⟨List.Perm.swap ssP ssQ [], ?_⟩, ?_, ?_⟩
  · unfold SortedByAgePop
    refine List.Pairwise.cons ?_ (List.Pairwise.cons (by simp) List.Pairwise.nil)
    intro b hb
    rw [List.mem_singleton] at hb
    subst hb
    exact htie ssP ssQ (by simp) (by simp)
  · unfold SortedByAgePop
    refine List.Pairwise.cons ?_ (List.Pairwise.cons (by simp) List.Pairwise.nil)
    intro b hb
    rw [List.mem_singleton] at hb
    subst hb
    exact htie ssQ ssP (by simp) (by simp)
  · intro heq
    have hhead := List.head_eq_of_cons_eq heq
    have : (1 : ℝ) = 0 := congrArg (fun ss => ss.Coordinates.X) hhead
    norm_num at this

/-- Go truncation agrees with the identity on natural casts. -/
theorem goInt_natCast (t : ℕ) : goInt ((t : ℕ) : ℝ) = (t : ℤ) := by
  rw [goInt, if_neg (not_lt.mpr (by positivity))]
  exact Int.floor_natCast t

/-- Go truncation of zero. -/
theorem goInt_zero : goInt 0 = 0 := by
  rw [goInt, if_neg (by norm_num)]
  exact Int.floor_zero

/-- Go truncation of a non-negative rational multiple of a natural
number is natural division: `int((a/b) * t) = (a*t)/b`. -/
theorem goInt_ratio (a b t : ℕ) (hb : 0 < b) :
    goInt ((a : ℝ) / (b : ℝ) * (t : ℝ)) = (((a * t) / b : ℕ) : ℤ) := by
  have hbR : (0 : ℝ) < (b : ℝ) := by exact_mod_cast hb
  have hx : (0 : ℝ) ≤ (a : ℝ) / (b : ℝ) * (t : ℝ) := by positivity
  rw [goInt, if_neg (not_lt.mpr hx), div_mul_eq_mul_div]
  apply Int.floor_eq_iff.mpr
  constructor
  · rw [le_div_iff hbR]
    push_cast
    exact_mod_cast Nat.div_mul_le_self (a * t) b
  · rw [div_lt_iff hbR]
    have hkey : a * t < (a * t / b + 1) * b := by
      have hdm := Nat.div_add_mod (a * t) b
      have hmod := Nat.mod_lt (a * t) hb
      calc a * t = b * (a * t / b) + a * t % b := hdm.symm
        _ < b * (a * t / b) + b := Nat.add_lt_add_left hmod _
        _ = (a * t / b + 1) * b := by ring
    push_cast
    exact_mod_cast hkey

/-- Each zone loop creates exactly its count of systems. -/
theorem genZone_length (stpop : StellarPopulation_e) (a r mn mx : ℝ) :
    ∀ (n : ℕ) (p g : PRNG),
      (genZone stpop a r mn mx n p g).1.length = n
  | 0, _, _ => rfl
  | n + 1, p, g => by
    simp only [genZone, List.length_cons]
    rw [genZone_length stpop a r mn mx n]

/-- The cluster catalog holds exactly the three (clamped) zone counts. -/
theorem buildClusterCatalog_length (prm : ClusterParams) (p g : PRNG) :
    (buildClusterCatalog prm p g).1.StarSystems.length =
      prm.coreCount.toNat + prm.tidalCount.toNat + prm.extendedHaloCount.toNat := by
  simp only [buildClusterCatalog, List.length_append, genZone_length]

/-- C3 (amended): the open-cluster catalog always contains exactly the
three post-redistribution zone counts; and for effective ages below
`0.3` — the rows of the evaporation table whose percentages sum to
one — those counts sum exactly to the total system count.  (For older
effective ages the table rows sum to less than one, modelling
evaporation, and the redistribution recovers at most two systems, so
the counts can fall short of the total; see the counterexample.) -/
theorem C3_zone_counts (t : ℕ) (eff : ℝ) (prm : ClusterParams) (p g : PRNG)
    (heff : eff < 0.3) :
    (finalZoneCounts eff t).1 + (finalZoneCounts eff t).2.1 +
      (finalZoneCounts eff t).2.2 = (t : ℤ) ∧
    (buildClusterCatalog prm p g).1.StarSystems.length =
      prm.coreCount.toNat + prm.tidalCount.toNat + prm.extendedHaloCount.toNat := by
  refine ⟨?_, buildClusterCatalog_length prm p g⟩
  unfold finalZoneCounts zoneCounts evaporationPcts
  by_cases h1 : eff < 0.1
  · rw [if_pos h1]
    have hc : goInt ((1.00 : ℝ) * (t : ℝ)) = (t : ℤ) := by
      rw [show (1.00 : ℝ) * (t : ℝ) = ((t : ℕ) : ℝ) by norm_num]
      exact goInt_natCast t
    have hz : goInt ((0.00 : ℝ) * (t : ℝ)) = 0 := by
      rw [show (0.00 : ℝ) * (t : ℝ) = 0 by norm_num]
      exact goInt_zero
    simp only [hc, hz, redistributeCounts]
    split_ifs with hA hB
    · dsimp only
      have hA' : (t : ℤ) + 0 + 0 < (t : ℤ) := by exact_mod_cast hA
      omega
    · dsimp only
      have hA' : (t : ℤ) + 0 + 0 < (t : ℤ) := by exact_mod_cast hA
      omega
    · dsimp only
      omega
  · by_cases h2 : eff < 0.2
    · rw [if_neg h1, if_pos h2]
      have hc : goInt ((0.80 : ℝ) * (t : ℝ)) = ((4 * t / 5 : ℕ) : ℤ) := by
        rw [show (0.80 : ℝ) * (t : ℝ) = ((4 : ℕ) : ℝ) / ((5 : ℕ) : ℝ) * (t : ℝ) by
          push_cast; norm_num]
        exact goInt_ratio 4 5 t (by norm_num)
      have ht : goInt ((0.20 : ℝ) * (t : ℝ)) = ((1 * t / 5 : ℕ) : ℤ) := by
        rw [show (0.20 : ℝ) * (t : ℝ) = ((1 : ℕ) : ℝ) / ((5 : ℕ) : ℝ) * (t : ℝ) by
          push_cast; norm_num]
        exact goInt_ratio 1 5 t (by norm_num)
      have hz : goInt ((0.00 : ℝ) * (t : ℝ)) = 0 := by
        rw [show (0.00 : ℝ) * (t : ℝ) = 0 by norm_num]
        exact goInt_zero
      simp only [hc, ht, hz, redistributeCounts]
      split_ifs with hA hB
      · dsimp only
        have hA' : ((4 * t / 5 : ℕ) : ℤ) + ((1 * t / 5 : ℕ) : ℤ) + 0 < (t : ℤ) := by
          exact_mod_cast hA
        have hB' : ((4 * t / 5 : ℕ) : ℤ) + 1 + ((1 * t / 5 : ℕ) : ℤ) + 0 < (t : ℤ) := by
          exact_mod_cast hB
        omega
      · dsimp only
        have hA' : ((4 * t / 5 : ℕ) : ℤ) + ((1 * t / 5 : ℕ) : ℤ) + 0 < (t : ℤ) := by
          exact_mod_cast hA
        have hB' : ¬ (((4 * t / 5 : ℕ) : ℤ) + 1 + ((1 * t / 5 : ℕ) : ℤ) + 0 < (t : ℤ)) := by
          intro hcon
          exact hB (by exact_mod_cast hcon)
        omega
      · dsimp only
        have hA' : ¬ (((4 * t / 5 : ℕ) : ℤ) + ((1 * t / 5 : ℕ) : ℤ) + 0 < (t : ℤ)) := by
          intro hcon
          exact hA (by exact_mod_cast hcon)
        omega
    · rw [if_neg h1, if_neg h2, if_pos heff]
      have hc : goInt ((0.64 : ℝ) * (t : ℝ)) = ((16 * t / 25 : ℕ) : ℤ) := by
        rw [show (0.64 : ℝ) * (t : ℝ) = ((16 : ℕ) : ℝ) / ((25 : ℕ) : ℝ) * (t : ℝ) by
          push_cast; norm_num]
        exact goInt_ratio 16 25 t (by norm_num)
      have ht : goInt ((0.32 : ℝ) * (t : ℝ)) = ((8 * t / 25 : ℕ) : ℤ) := by
        rw [show (0.32 : ℝ) * (t : ℝ) = ((8 : ℕ) : ℝ) / ((25 : ℕ) : ℝ) * (t : ℝ) by
          push_cast; norm_num]
        exact goInt_ratio 8 25 t (by norm_num)
      have hz : goInt ((0.04 : ℝ) * (t : ℝ)) = ((1 * t / 25 : ℕ) : ℤ) := by
        rw [show (0.04 : ℝ) * (t : ℝ) = ((1 : ℕ) : ℝ) / ((25 : ℕ) : ℝ) * (t : ℝ) by
          push_cast; norm_num]
        exact goInt_ratio 1 25 t (by norm_num)
      simp only [hc, ht, hz, redistributeCounts]
      split_ifs with hA hB
      · dsimp only
        have hA' : ((16 * t / 25 : ℕ) : ℤ) + ((8 * t / 25 : ℕ) : ℤ) +
            ((1 * t / 25 : ℕ) : ℤ) < (t : ℤ) := by exact_mod_cast hA
        have hB' : ((16 * t / 25 : ℕ) : ℤ) + 1 + ((8 * t / 25 : ℕ) : ℤ) +
            ((1 * t / 25 : ℕ) : ℤ) < (t : ℤ) := by exact_mod_cast hB
        omega
      · dsimp only
        have hA' : ((16 * t / 25 : ℕ) : ℤ) + ((8 * t / 25 : ℕ) : ℤ) +
            ((1 * t / 25 : ℕ) : ℤ) < (t : ℤ) := by exact_mod_cast hA
        have hB' : ¬ (((16 * t / 25 : ℕ) : ℤ) + 1 + ((8 * t / 25 : ℕ) : ℤ) +
            ((1 * t / 25 : ℕ) : ℤ) < (t : ℤ)) := by
          intro hcon
          exact hB (by exact_mod_cast hcon)
        omega
      · dsimp only
        have hA' : ¬ (((16 * t / 25 : ℕ) : ℤ) + ((8 * t / 25 : ℕ) : ℤ) +
            ((1 * t / 25 : ℕ) : ℤ) < (t : ℤ)) := by
          intro hcon
          exact hA (by exact_mod_cast hcon)
        omega

/-- Witness for C3, at the evaporation row `eff = 0.25` with `t = 7`
and a concrete parameter record. -/
theorem C3_zone_counts_witness :
    (finalZoneCounts 0.25 ((7 : ℕ) : ℝ)).1 + (finalZoneCounts 0.25 ((7 : ℕ) : ℝ)).2.1 +
      (finalZoneCounts 0.25 ((7 : ℕ) : ℝ)).2.2 = ((7 : ℕ) : ℤ) ∧
    (buildClusterCatalog ⟨True, 1, .YoungPopulationI, 1, 3, 2, 1, 0⟩ pZero pZero).1.StarSystems.length =
      (2 : ℤ).toNat + (1 : ℤ).toNat + (0 : ℤ).toNat :=
  C3_zone_counts 7 0.25 ⟨True, 1, .YoungPopulationI, 1, 3, 2, 1, 0⟩ pZero pZero
    (by norm_num)

/-- Concrete evaluation of the cluster stages on the seeded stream
`sC3`: a loosely-bound cluster of age `0.65`, radius `299/120`, total
count `30`, and post-redistribution zone counts `(8, 12, 7)`. -/
theorem clusterParams_pC3_eval : clusterParams pC3 =
    (⟨((18 : ℝ) ≤ 5), 0.65, .YoungPopulationI, 299 / 120, 30, 8, 12, 7⟩,
      ⟨sC3, 12⟩) := by
  norm_num [clusterParams, PRNG.RollD6, PRNG.RollD100, PRNG.RollPercentile,
    PRNG.Float64, PRNG.IntN, PRNG.VaryNPct, rollDiceSum, pC3, sC3,
    clusterAgeLoose, clusterPopulation, finalZoneCounts, zoneCounts,
    evaporationPcts, redistributeCounts, goInt,
    show (3 : ℕ) = 2 + 1 from rfl, show (2 : ℕ) = 1 + 1 from rfl,
    show (1 : ℕ) = 0 + 1 from rfl]

/-- C3 counterexample: on the seeded stream `sC3` the open-cluster
generator computes a total of `30` systems, but the evaporation row
for effective age `0.65` retains only `7 + 11 + 7` of them and the
redistribution adds just two, so the zone counts sum to `27 ≠ 30` and
the catalog holds `27` systems, not the total. -/
theorem C3_zone_counts_counterexample :
    (clusterParams pC3).1.numberOfStarSystems = 30 ∧
    (clusterParams pC3).1.coreCount + (clusterParams pC3).1.tidalCount +
      (clusterParams pC3).1.extendedHaloCount = 27 ∧
    (NewOpenCluster pC3 pZero).1.StarSystems.length = 27 := by
  refine ⟨by rw [clusterParams_pC3_eval], by rw [clusterParams_pC3_eval]; norm_num, ?_⟩
  simp only [NewOpenCluster, clusterParams_pC3_eval, buildClusterCatalog_length]
  decide

/-- Concrete evaluation of the cluster stages on the seeded stream
`sC6`: a tightly-bound cluster of age `1.98` (group Young-I), radius
`1.025`, and three core systems. -/
theorem clusterParams_pC6_eval : clusterParams pC6 =
    (⟨((3 : ℝ) ≤ 5), 1.98, .YoungPopulationI, 1.025, 3, 3, 0, 0⟩,
      ⟨sC6, 12⟩) := by
  norm_num [clusterParams, PRNG.RollD6, PRNG.RollD100, PRNG.RollPercentile,
    PRNG.Float64, PRNG.IntN, PRNG.VaryNPct, rollDiceSum, pC6, sC6,
    clusterAgeTight, clusterPopulation, finalZoneCounts, zoneCounts,
    evaporationPcts, redistributeCounts, goInt,
    show (3 : ℕ) = 2 + 1 from rfl, show (2 : ℕ) = 1 + 1 from rfl,
    show (1 : ℕ) = 0 + 1 from rfl]

/-- C6 counterexample: on the seeded stream `sC6` the first generated
cluster system belongs to group Young-I (cluster age `1.98 < 2`) but
its ±5% age variance rolls high, producing age
`1.98 × 1.05 = 2.079 > 2 = base_age + age_range` of Young-I. -/
theorem C6_age_bound_counterexample :
    ((NewOpenCluster pC6 pZero).1.StarSystems.head?.map
      (fun ss => (ss.Population, ss.Age))) =
      some (.YoungPopulationI, 2.079) ∧
    ¬ ((2.079 : ℝ) ≤ ageCap .YoungPopulationI) := by
  constructor
  · have hage : (PRNG.Vary5Pct 1.98 (⟨sC6, 12⟩ : PRNG)).1 = 2.079 := by
      norm_num [PRNG.Vary5Pct, PRNG.RollD6, PRNG.IntN, rollDiceSum, sC6,
        show (2 : ℕ) = 1 + 1 from rfl, show (1 : ℕ) = 0 + 1 from rfl]
    simp only [NewOpenCluster, clusterParams_pC6_eval, buildClusterCatalog,
      show ((3 : ℤ)).toNat = 2 + 1 from rfl, genZone, List.cons_append,
      List.head?_cons, Option.map_some']
    rw [hage]
  · norm_num [ageCap]

/-- Each age bucket `base + range * u` with `0 ≤ base`, `0 < range`
and `base + range ≤ 8` stays in `[0, 8)` for a percentile `u` in
`[0, 1)`. -/
theorem bucket_bounds {b r u : ℝ} (hb : 0 ≤ b) (hr : 0 < r) (h8 : b + r ≤ 8)
    (h0 : 0 ≤ u) (h1 : u < 1) : 0 ≤ b + r * u ∧ b + r * u < 8 := by
  constructor
  · nlinarith
  · nlinarith [mul_lt_mul_of_pos_left h1 hr]

/-- Every bucket of the tightly-bound age table yields an age in
`[0, 8)` for a percentile in `[0, 1)`. -/
theorem clusterAgeTight_bounds (n : ℤ) {u : ℝ} (h0 : 0 ≤ u) (h1 : u < 1) :
    0 ≤ clusterAgeTight n u ∧ clusterAgeTight n u < 8 := by
  rw [clusterAgeTight]
  by_cases c1 : n ≤ 2
  · rw [if_pos c1]
    exact bucket_bounds (by norm_num) (by norm_num) (by norm_num) h0 h1
  rw [if_neg c1]
  by_cases c2 : n ≤ 4
  · rw [if_pos c2]
    exact bucket_bounds (by norm_num) (by norm_num) (by norm_num) h0 h1
  rw [if_neg c2]
  by_cases c3 : n ≤ 6
  · rw [if_pos c3]
    exact bucket_bounds (by norm_num) (by norm_num) (by norm_num) h0 h1
  rw [if_neg c3]
  by_cases c4 : n ≤ 8
  · rw [if_pos c4]
    exact bucket_bounds (by norm_num) (by norm_num) (by norm_num) h0 h1
  rw [if_neg c4]
  by_cases c5 : n ≤ 10
  · rw [if_pos c5]
    exact bucket_bounds (by norm_num) (by norm_num) (by norm_num) h0 h1
  rw [if_neg c5]
  by_cases c6 : n ≤ 12
  · rw [if_pos c6]
    exact bucket_bounds (by norm_num) (by norm_num) (by norm_num) h0 h1
  rw [if_neg c6]
  by_cases c7 : n ≤ 14
  · rw [if_pos c7]
    exact bucket_bounds (by norm_num) (by norm_num) (by norm_num) h0 h1
  rw [if_neg c7]
  by_cases c8 : n ≤ 16
  · rw [if_pos c8]
    exact bucket_bounds (by norm_num) (by norm_num) (by norm_num) h0 h1
  rw [if_neg c8]
  by_cases c9 : n ≤ 18
  · rw [if_pos c9]
    exact bucket_bounds (by norm_num) (by norm_num) (by norm_num) h0 h1
  rw [if_neg c9]
  by_cases c10 : n ≤ 20
  · rw [if_pos c10]
    exact bucket_bounds (by norm_num) (by norm_num) (by norm_num) h0 h1
  rw [if_neg c10]
  by_cases c11 : n ≤ 45
  · rw [if_pos c11]
    exact bucket_bounds (by norm_num) (by norm_num) (by norm_num) h0 h1
  rw [if_neg c11]
  exact bucket_bounds (by norm_num) (by norm_num) (by norm_num) h0 h1

/-- Every bucket of the loosely-bound age table yields an age in
`[0, 8)` for a percentile in `[0, 1)`. -/
theorem clusterAgeLoose_bounds (n : ℤ) {u : ℝ} (h0 : 0 ≤ u) (h1 : u < 1) :
    0 ≤ clusterAgeLoose n u ∧ clusterAgeLoose n u < 8 := by
  rw [clusterAgeLoose]
  by_cases c1 : n ≤ 21
  · rw [if_pos c1]
    exact bucket_bounds (by norm_num) (by norm_num) (by norm_num) h0 h1
  rw [if_neg c1]
  by_cases c2 : n ≤ 38
  · rw [if_pos c2]
    exact bucket_bounds (by norm_num) (by norm_num) (by norm_num) h0 h1
  rw [if_neg c2]
  by_cases c3 : n ≤ 52
  · rw [if_pos c3]
    exact bucket_bounds (by norm_num) (by norm_num) (by norm_num) h0 h1
  rw [if_neg c3]
  by_cases c4 : n ≤ 64
  · rw [if_pos c4]
    exact bucket_bounds (by norm_num) (by norm_num) (by norm_num) h0 h1
  rw [if_neg c4]
  by_cases c5 : n ≤ 73
  · rw [if_pos c5]
    exact bucket_bounds (by norm_num) (by norm_num) (by norm_num) h0 h1
  rw [if_neg c5]
  by_cases c6 : n ≤ 81
  · rw [if_pos c6]
    exact bucket_bounds (by norm_num) (by norm_num) (by norm_num) h0 h1
  rw [if_neg c6]
  by_cases c7 : n ≤ 87
  · rw [if_pos c7]
    exact bucket_bounds (by norm_num) (by norm_num) (by norm_num) h0 h1
  rw [if_neg c7]
  by_cases c8 : n ≤ 92
  · rw [if_pos c8]
    exact bucket_bounds (by norm_num) (by norm_num) (by norm_num) h0 h1
  rw [if_neg c8]
  by_cases c9 : n ≤ 96
  · rw [if_pos c9]
    exact bucket_bounds (by norm_num) (by norm_num) (by norm_num) h0 h1
  rw [if_neg c9]
  exact bucket_bounds (by norm_num) (by norm_num) (by norm_num) h0 h1

/-- The population assigned to a cluster age keeps the age below that
group's cap, provided the age is below the global bound `8`. -/
theorem clusterPopulation_age_lt_cap {a : ℝ} (h0 : 0 ≤ a) (h8 : a < 8) :
    a < ageCap (clusterPopulation a) := by
  unfold clusterPopulation
  split_ifs with hy hi
  · simp only [ageCap]
    linarith
  · simp only [ageCap]
    linarith
  · simp only [ageCap]
    linarith

/-- The zone loops do not change the seeded stream. -/
theorem genZone_stream (stpop : StellarPopulation_e) (a r mn mx : ℝ) :
    ∀ (n : ℕ) (p g : PRNG),
      (genZone stpop a r mn mx n p g).2.1.stream = p.stream
  | 0, _, _ => rfl
  | n + 1, p, g => by
    simp only [genZone]
    rw [genZone_stream stpop a r mn mx n]
    exact Vary5Pct_stream a p

/-- Ages generated by a zone loop: every system carries the zone's
population group and an age in `[0, 1.05 × clusterAge]`. -/
theorem genZone_ages (stpop : StellarPopulation_e) (a r mn mx : ℝ) :
    ∀ (n : ℕ) (p g : PRNG), p.WellFormed → 0 ≤ a →
      ∀ ss ∈ (genZone stpop a r mn mx n p g).1,
        ss.Population = stpop ∧ 0 ≤ ss.Age ∧ ss.Age ≤ 1.05 * a
  | 0, p, g, _, _ => by
    intro ss hss
    simp [genZone] at hss
  | n + 1, p, g, hp, ha => by
    intro ss hss
    simp only [genZone, List.mem_cons] at hss
    rcases hss with rfl | htail
    · have hb := Vary5Pct_bounds hp ha
      exact ⟨rfl, hb.1, hb.2⟩
    · have hwf : (PRNG.GenZonedXYZ mn mx (p.Vary5Pct a).2 g).2.1.WellFormed :=
        wellFormed_of_stream_eq (by rw [GenZonedXYZ_receiver, Vary5Pct_stream]) hp
      exact genZone_ages stpop a r mn mx n _ _ hwf ha ss htail

/-- The group loop of the background generator does not change the
stream. -/
theorem genGroupSystems_stream (key : StellarPopulation_e)
    (value : populationModel_t) (radius : ℝ) :
    ∀ (n : ℕ) (p : PRNG),
      (genGroupSystems key value radius n p).2.stream = p.stream
  | 0, _ => rfl
  | n + 1, p => genGroupSystems_stream key value radius n _

/-- Ages generated by one background group: every system carries group
`key` and an age in `[BaseAge, BaseAge + AgeRange)`, hence within the
group cap when `BaseAge + AgeRange ≤ ageCap key`. -/
theorem genGroupSystems_ages (key : StellarPopulation_e)
    (value : populationModel_t) (radius : ℝ)
    (hbase : 0 ≤ value.BaseAge) (hrange : 0 ≤ value.AgeRange)
    (hcap : value.BaseAge + value.AgeRange ≤ ageCap key) :
    ∀ (n : ℕ) (p : PRNG), p.WellFormed →
      ∀ ss ∈ (genGroupSystems key value radius n p).1,
        0 ≤ ss.Age ∧ ss.Age ≤ ageCap ss.Population
  | 0, p, _ => by
    intro ss hss
    simp [genGroupSystems] at hss
  | n + 1, p, hp => by
    intro ss hss
    simp only [genGroupSystems, List.mem_cons] at hss
    rcases hss with rfl | htail
    · have hu := hp p.idx
      constructor
      · exact add_nonneg hbase (mul_nonneg hrange hu.1)
      · show value.BaseAge + value.AgeRange * p.stream p.idx ≤ ageCap key
        have : value.AgeRange * p.stream p.idx ≤ value.AgeRange * 1 :=
          mul_le_mul_of_nonneg_left (le_of_lt hu.2) hrange
        linarith
    · exact genGroupSystems_ages key value radius hbase hrange hcap n
        ((p.RollPercentile).2.GenXYZ).2
        (wellFormed_of_stream_eq rfl hp) ss htail

/-- One background group call (count roll plus loop) does not change
the stream. -/
theorem genGroup_stream (key : StellarPopulation_e)
    (value : populationModel_t) (pm : PopulationModel_t) (p : PRNG) :
    (genGroup key value pm p).2.stream = p.stream := by
  simp only [genGroup]
  rw [genGroupSystems_stream]
  exact Vary10Pct_stream _ p

/-- Age bounds for one background group call. -/
theorem genGroup_ages (key : StellarPopulation_e)
    (value : populationModel_t) (pm : PopulationModel_t) {p : PRNG}
    (hp : p.WellFormed) (hbase : 0 ≤ value.BaseAge)
    (hrange : 0 ≤ value.AgeRange)
    (hcap : value.BaseAge + value.AgeRange ≤ ageCap key) :
    ∀ ss ∈ (genGroup key value pm p).1,
      0 ≤ ss.Age ∧ ss.Age ≤ ageCap ss.Population := by
  simp only [genGroup]
  exact genGroupSystems_ages key value pm.Radius hbase hrange hcap _ _
    (wellFormed_of_stream_eq (Vary10Pct_stream _ p) hp)

/-- The cluster stage computation does not change the seeded stream. -/
theorem clusterParams_stream (p : PRNG) :
    (clusterParams p).2.stream = p.stream := by
  simp only [clusterParams]
  rw [RollD6_stream, VaryNPct_stream, RollD6_stream, RollPercentile_stream,
    RollD100_stream, RollD6_stream]

/-- The cluster age computed by the stages is non-negative and below
the cap of the population group it selects. -/
theorem clusterParams_age_bounds {q : PRNG} (hq : q.WellFormed) :
    0 ≤ (clusterParams q).1.clusterAge ∧
    (clusterParams q).1.clusterAge <
      ageCap (clusterParams q).1.stpop := by
  simp only [clusterParams]
  set d100state := ((q.RollD6 3).2.RollD100).2 with hd
  have hu : 0 ≤ d100state.stream d100state.idx ∧
      d100state.stream d100state.idx < 1 := by
    have hs : d100state.stream = q.stream := by
      rw [hd, RollD100_stream, RollD6_stream]
    rw [hs]
    exact hq _
  by_cases htight : (q.RollD6 3).1 ≤ 5
  · rw [if_pos htight]
    have hb := clusterAgeTight_bounds (((q.RollD6 3).2.RollD100).1) hu.1 hu.2
    exact ⟨hb.1, clusterPopulation_age_lt_cap hb.1 hb.2⟩
  · rw [if_neg htight]
    have hb := clusterAgeLoose_bounds (((q.RollD6 3).2.RollD100).1) hu.1 hu.2
    exact ⟨hb.1, clusterPopulation_age_lt_cap hb.1 hb.2⟩

/-- C6 (amended): every system of the background population respects
`0 ≤ age ≤ base_age + age_range` of its group; every system of an open
cluster has a non-negative age that is within +5% of the cluster age
and may therefore exceed its group bound by up to 5%, staying strictly
below `1.05 × (base_age + age_range)`. -/
theorem C6_age_bounds (pm : PopulationModel_t) (p q g : PRNG)
    (hpm : StandardAges pm) (hp : p.WellFormed) (hq : q.WellFormed) :
    CatalogAgesOK (NewBackgroundPopulation pm p).1.StarSystems ∧
    ClusterAgesOK (NewOpenCluster q g).1.StarSystems := by
  obtain ⟨hy1, hy2, hi1, hi2, ho1, ho2, hd1, hd2, hh1, hh2⟩ := hpm
  constructor
  · intro ss hss
    simp only [NewBackgroundPopulation, List.mem_append] at hss
    have hp1 : ((genGroup .YoungPopulationI pm.YoungPopulationI pm p).2).WellFormed :=
      wellFormed_of_stream_eq (genGroup_stream _ _ _ _) hp
    have hp2 : ((genGroup .IntermediatePopulationI pm.IntermediatePopulationI pm
        (genGroup .YoungPopulationI pm.YoungPopulationI pm p).2).2).WellFormed :=
      wellFormed_of_stream_eq (genGroup_stream _ _ _ _) hp1
    have hp3 : ((genGroup .OldPopulationI pm.OldPopulationI pm
        (genGroup .IntermediatePopulationI pm.IntermediatePopulationI pm
          (genGroup .YoungPopulationI pm.YoungPopulationI pm p).2).2).2).WellFormed :=
      wellFormed_of_stream_eq (genGroup_stream _ _ _ _) hp2
    have hp4 : ((genGroup .DiskPopulationII pm.DiskPopulationII pm
        (genGroup .OldPopulationI pm.OldPopulationI pm
          (genGroup .IntermediatePopulationI pm.IntermediatePopulationI pm
            (genGroup .YoungPopulationI pm.YoungPopulationI pm p).2).2).2).2).WellFormed :=
      wellFormed_of_stream_eq (genGroup_stream _ _ _ _) hp3
    rcases hss with (((h1 | h2) | h3) | h4) | h5
    · exact genGroup_ages _ _ pm hp (by rw [hy1]) (by rw [hy2]; norm_num)
        (by rw [hy1, hy2]; norm_num [ageCap]) ss h1
    · exact genGroup_ages _ _ pm hp1 (by rw [hi1]; norm_num) (by rw [hi2]; norm_num)
        (by rw [hi1, hi2]; norm_num [ageCap]) ss h2
    · exact genGroup_ages _ _ pm hp2 (by rw [ho1]; norm_num) (by rw [ho2]; norm_num)
        (by rw [ho1, ho2]; norm_num [ageCap]) ss h3
    · exact genGroup_ages _ _ pm hp3 (by rw [hd1]; norm_num) (by rw [hd2]; norm_num)
        (by rw [hd1, hd2]; norm_num [ageCap]) ss h4
    · exact genGroup_ages _ _ pm hp4 (by rw [hh1]; norm_num) (by rw [hh2]; norm_num)
        (by rw [hh1, hh2]; norm_num [ageCap]) ss h5
  · intro ss hss
    have hage := clusterParams_age_bounds hq
    have hqs : ((clusterParams q).2).WellFormed :=
      wellFormed_of_stream_eq (clusterParams_stream q) hq
    simp only [NewOpenCluster, buildClusterCatalog, List.mem_append] at hss
    have hcap : 0 ≤ (clusterParams q).1.clusterAge := hage.1
    have step : ∀ mn mx n pz gz, pz.WellFormed →
        ∀ s2 ∈ (genZone (clusterParams q).1.stpop (clusterParams q).1.clusterAge
          (clusterParams q).1.clusterRadius mn mx n pz gz).1,
          0 ≤ s2.Age ∧ s2.Age < 1.05 * ageCap s2.Population := by
      intro mn mx n pz gz hwf s2 hs2
      obtain ⟨hpop, hnn, hle⟩ := genZone_ages _ _ _ mn mx n pz gz hwf hcap s2 hs2
      refine ⟨hnn, lt_of_le_of_lt hle ?_⟩
      rw [hpop]
      have := hage.2
      nlinarith
    rcases hss with (h1 | h2) | h3
    · exact step _ _ _ _ _ hqs ss h1
    · refine step _ _ _ _ _ ?_ ss h2
      exact wellFormed_of_stream_eq (genZone_stream _ _ _ _ _ _ _ _) hqs
    · refine step _ _ _ _ _ ?_ ss h3
      refine wellFormed_of_stream_eq (genZone_stream _ _ _ _ _ _ _ _) ?_
      exact wellFormed_of_stream_eq (genZone_stream _ _ _ _ _ _ _ _) hqs

/-- Witness for C6, on the all-zeros streams and the basic table. -/
theorem C6_age_bounds_witness :
    CatalogAgesOK (NewBackgroundPopulation BasicPopulationModelTable pZero).1.StarSystems ∧
    ClusterAgesOK (NewOpenCluster pZero pZero).1.StarSystems :=
  C6_age_bounds BasicPopulationModelTable pZero pZero pZero
    (by norm_num [StandardAges, BasicPopulationModelTable])
    (fun i => by constructor <;> norm_num [pZero])
    (fun i => by constructor <;> norm_num [pZero])

end

end Aow
